import Mathlib

/-!
# PlayerDialog

A shallow embedding of `src/app/dashboard/_components/PlayerDialog.jsx`.

* React state (`useState`) is an explicit record `State`; every handler maps a
  state to the next state together with the list of external effects it
  performs, in program order.
* The `async` function `getVideoData` is split at its single `await`: the
  query it issues and the continuation that runs once the query settles.
* `Date.now()` readings are inputs; arithmetic on them is exact (`ℚ`).
-/

namespace PlayerDialog

/-! ## Data model -/

/-- Modelled from the spec: the row type of the `VideoData` table
(`@/config/schema`, not part of the sources). The component only reads
`textContent`; `id` is the key the query filters on. -/
structure VideoRecord where
  id : Int
  textContent : String
  deriving DecidableEq, Repr

/-- The JavaScript values the `videoId` prop can carry: absent, `null`, a
number key or a string key. -/
inductive VideoId where
  | undefined
  | null
  | num (n : Int)
  | str (s : String)
  deriving DecidableEq, Repr

/-- JavaScript truthiness of a `videoId` value, as used by `videoId && ...`. -/
def VideoId.truthy : VideoId → Bool
  | .undefined => false
  | .null => false
  | .num n => n != 0
  | .str s => s != ""

/-- JavaScript truthiness of a `string | null` state cell, as used by
`error ? ... : ...` and `videoUrl && ...`. -/
def truthyStr : Option String → Bool
  | none => false
  | some s => s != ""

/-- The four `useState` cells of the component (lines 15-19). -/
structure State where
  openDialog : Bool
  videoData : Option VideoRecord
  error : Option String
  videoUrl : Option String
  deriving DecidableEq, Repr

/-- The initial values passed to `useState`. -/
def State.initial : State :=
  { openDialog := false, videoData := none, error := none, videoUrl := none }

/-- External effects performed by the component, recorded in program order. -/
inductive Effect where
  /-- `console.error(label, err)` -/
  | consoleError (label : String) (err : String)
  /-- entry into `generateVideo(data)` -/
  | generateVideo (data : VideoRecord)
  /-- `canvas.width = w; canvas.height = h` -/
  | setCanvasSize (w h : Nat)
  /-- `canvas.captureStream(fps)` -/
  | captureStream (fps : Nat)
  /-- `new MediaRecorder(stream, mimeType)` -/
  | newMediaRecorder (mimeType : String)
  /-- `recorder.start()` -/
  | recorderStart
  /-- `ctx.clearRect(x, y, w, h)` -/
  | clearRect (x y w h : Nat)
  /-- `ctx.fillStyle = c` -/
  | fillStyle (c : String)
  /-- `ctx.fillRect(x, y, w, h)` -/
  | fillRect (x y w h : Nat)
  /-- `ctx.font = f` -/
  | font (f : String)
  /-- `ctx.fillText(text, x, y)` -/
  | fillText (text : String) (x y : ℚ)
  /-- `requestAnimationFrame(animate)` -/
  | requestAnimationFrame
  /-- `recorder.stop()` -/
  | recorderStop
  /-- the `onClose()` prop callback -/
  | onClose
  deriving DecidableEq, Repr

/-- What `canvasRef.current` holds when it is not `null`: whether
`getContext('2d')` yields a context. -/
structure Canvas where
  has2d : Bool
  deriving DecidableEq, Repr

/-- The browser environment `generateVideo` runs in. -/
structure Env where
  /-- `canvasRef.current` -/
  canvasRef : Option Canvas
  /-- the value of `Date.now()` at line 71 -/
  startTime : Int
  /-- the value of `Date.now()` in the first `animate()` call (line 97) -/
  firstNow : Int
  /-- the values of `Date.now()` in the animation-frame callbacks the browser
  delivers afterwards, in order -/
  laterNows : List Int
  deriving DecidableEq, Repr

/-! ## Render and capture (lines 41-98) -/

def width : Nat := 300
def height : Nat := 450
def fps : Nat := 30
/-- Seconds. -/
def duration : ℚ := 5

/-- Line 74: `Math.min(elapsed / (duration * 1000), 1)`. -/
def progress (elapsed : ℚ) : ℚ := min (elapsed / (duration * 1000)) 1

/-- Line 86, third argument of `fillText`: `50 + progress * 100`. -/
def textY (p : ℚ) : ℚ := 50 + p * 100

/-- One run of the `animate` closure (lines 72-95) with `Date.now() = now`. -/
def animate (data : VideoRecord) (startTime now : Int) : List Effect :=
  let elapsed : ℚ := ((now - startTime : Int) : ℚ)
  let p := progress elapsed
  [ Effect.clearRect 0 0 width height,
    Effect.fillStyle "#ffffff",
    Effect.fillRect 0 0 width height,
    Effect.fillStyle "#000000",
    Effect.font "24px Arial",
    Effect.fillText data.textContent 50 (textY p) ] ++
  (if p < 1 then [Effect.requestAnimationFrame] else [Effect.recorderStop])

/-- The frame loop: `animate` runs with reading `now`; the browser runs it
again with the next reading only when the frame asked for it through
`requestAnimationFrame(animate)`. -/
def runFrames (data : VideoRecord) (startTime : Int) : Int → List Int → List Effect
  | now, [] => animate data startTime now
  | now, next :: rest =>
    if Effect.requestAnimationFrame ∈ animate data startTime now then
      animate data startTime now ++ runFrames data startTime next rest
    else
      animate data startTime now

/-- The body of `generateVideo` (lines 41-98) followed by the frames it sets
off. The recorder callbacks installed at lines 62-66 run after `recorder.stop()`
and are not part of the trace. -/
def generateVideo (env : Env) (data : VideoRecord) : List Effect :=
  match env.canvasRef with
  | none => []
  | some canvas =>
    if !canvas.has2d then []
    else
      [ Effect.setCanvasSize width height,
        Effect.captureStream fps,
        Effect.newMediaRecorder "video/webm",
        Effect.recorderStart ] ++
      runFrames data env.startTime env.firstNow env.laterNows

/-! ## Fetch (lines 26-39) -/

/-- An `async` call suspended at its `await`: the query it issued and what it
does once the query settles (`.ok rows`) or rejects (`.error err`). -/
structure Pending where
  query : VideoId
  resume : Except String (List VideoRecord) → Env → State → State × List Effect

/-- The function `getVideoData` (lines 26-39). -/
def getVideoData (videoId : VideoId) : Pending where
  query := videoId
  resume := fun outcome env s =>
    match outcome with
    | .ok result =>
      if h : result.length > 0 then
        let row := result.get ⟨0, h⟩
        ({ s with videoData := some row },
          Effect.generateVideo row :: generateVideo env row)
      else
        ({ s with error := some "Video not found" }, [])
    | .error err =>
      ({ s with error := some "Failed to fetch video data" },
        [Effect.consoleError "Error fetching video data:" err])

/-! ## Dialog controller (lines 21-24, 100-106) -/

/-- The effect of lines 21-24, run for a `(playVideo, videoId)` pair. -/
def openEffect (videoId : VideoId) (s : State) : State × Option Pending :=
  ({ s with openDialog := true },
    if videoId.truthy then some (getVideoData videoId) else none)

/-- The function `handleClose` (lines 100-103). -/
def handleClose (s : State) : State × List Effect :=
  ({ s with openDialog := false }, [Effect.onClose])

/-- The handler given to the dialog as `onOpenChange` (line 106): `setOpenDialog`. -/
def onOpenChange (value : Bool) (s : State) : State × List Effect :=
  ({ s with openDialog := value }, [])

/-! ## Presentation (lines 105-133) -/

/-- What a control runs when activated. -/
inductive Handler where
  | handleClose
  deriving DecidableEq, Repr

/-- The elements that can occur inside `DialogDescription`. -/
inductive Node where
  /-- `<p className="text-red-500">{error}</p>` -/
  | errorText (msg : String)
  /-- `<canvas ref={canvasRef} style={{ display: 'none' }} />` -/
  | canvas
  /-- `<video controls src={videoUrl} ... />` -/
  | video (src : String)
  /-- `<Button variant="ghost" onClick={...}>label</Button>` -/
  | button (label : String) (onClick : Handler)
  deriving DecidableEq, Repr

/-- The rendered dialog. -/
structure View where
  isOpen : Bool
  title : String
  description : List Node
  deriving DecidableEq, Repr

/-- The JSX returned by the component (lines 105-133). -/
def render (s : State) : View :=
  { isOpen := s.openDialog
    title := "Your Video"
    description :=
      if truthyStr s.error then
        [Node.errorText (s.error.getD "")]
      else
        [Node.canvas] ++
        (if truthyStr s.videoUrl then [Node.video (s.videoUrl.getD "")] else []) ++
        [Node.button "Close" Handler.handleClose] }

/-- Whether activating the node runs `handleClose`. -/
def Node.isCloseControl : Node → Bool
  | .button _ Handler.handleClose => true
  | _ => false

/-- The number of close controls in a view. -/
def View.closeControls (v : View) : Nat :=
  v.description.countP Node.isCloseControl

/-! ## Trace observers -/

/-- Whether an effect is an entry into `generateVideo`. -/
def Effect.isGenerateVideo : Effect → Bool
  | .generateVideo _ => true
  | _ => false

/-- Whether an effect is a `console.error` call. -/
def Effect.isConsoleError : Effect → Bool
  | .consoleError _ _ => true
  | _ => false

/-- Whether an effect is a `fillText` call. -/
def Effect.isFillText : Effect → Bool
  | .fillText _ _ _ => true
  | _ => false

/-- A state reached from the initial one: the dialog was opened for key 7,
the query returned no row. -/
def notFoundState : State :=
  ((getVideoData (.num 7)).resume (.ok [])
    { canvasRef := some { has2d := true }, startTime := 0, firstNow := 0, laterNows := [] }
    (openEffect (.num 7) State.initial).1).1

/-! ## Helper lemmas -/

theorem duration_ms : duration * 1000 = 5000 := by
  norm_num [duration]

theorem progress_lt_one_iff (e : ℚ) : progress e < 1 ↔ e < 5000 := by
  unfold progress
  rw [duration_ms, min_lt_iff]
  constructor
  · rintro (h | h)
    · rwa [div_lt_one (by norm_num)] at h
    · exact absurd h (lt_irrefl _)
  · intro h
    left
    rwa [div_lt_one (by norm_num)]

theorem animate_isGenerateVideo (data : VideoRecord) (st now : Int) :
    (animate data st now).countP Effect.isGenerateVideo = 0 := by
  unfold animate
  dsimp only
  split_ifs <;> simp [List.countP_cons, Effect.isGenerateVideo]

theorem runFrames_isGenerateVideo (data : VideoRecord) (st : Int) (rest : List Int) :
    ∀ now, (runFrames data st now rest).countP Effect.isGenerateVideo = 0 := by
  induction rest with
  | nil => intro now; simpa [runFrames] using animate_isGenerateVideo data st now
  | cons next rest ih =>
    intro now
    unfold runFrames
    split
    · rw [List.countP_append, animate_isGenerateVideo, ih]
    · exact animate_isGenerateVideo data st now

theorem generateVideo_isGenerateVideo (env : Env) (data : VideoRecord) :
    (generateVideo env data).countP Effect.isGenerateVideo = 0 := by
  unfold generateVideo
  split
  · rfl
  · split
    · rfl
    · rw [List.countP_append, runFrames_isGenerateVideo]
      simp [List.countP_cons, Effect.isGenerateVideo]

theorem progress_le_one (e : ℚ) : progress e ≤ 1 := by
  unfold progress
  exact min_le_right _ _

theorem progress_nonneg (e : ℚ) (h : 0 ≤ e) : 0 ≤ progress e := by
  unfold progress
  rw [duration_ms]
  exact le_min (div_nonneg h (by norm_num)) zero_le_one

theorem progress_cast_lt_one_iff (st now : Int) :
    progress ((now - st : Int) : ℚ) < 1 ↔ now - st < 5000 := by
  rw [progress_lt_one_iff]
  constructor
  · intro h; exact_mod_cast h
  · intro h; exact_mod_cast h

theorem animate_of_lt (data : VideoRecord) (st now : Int) (h : now - st < 5000) :
    animate data st now =
      [ Effect.clearRect 0 0 width height, Effect.fillStyle "#ffffff",
        Effect.fillRect 0 0 width height, Effect.fillStyle "#000000",
        Effect.font "24px Arial",
        Effect.fillText data.textContent 50 (textY (progress ((now - st : Int) : ℚ))),
        Effect.requestAnimationFrame ] := by
  have hp := (progress_cast_lt_one_iff st now).mpr h
  unfold animate
  dsimp only
  rw [if_pos hp]
  rfl

theorem animate_of_ge (data : VideoRecord) (st now : Int) (h : ¬ now - st < 5000) :
    animate data st now =
      [ Effect.clearRect 0 0 width height, Effect.fillStyle "#ffffff",
        Effect.fillRect 0 0 width height, Effect.fillStyle "#000000",
        Effect.font "24px Arial",
        Effect.fillText data.textContent 50 (textY (progress ((now - st : Int) : ℚ))),
        Effect.recorderStop ] := by
  have hp : ¬ progress ((now - st : Int) : ℚ) < 1 :=
    fun hlt => h ((progress_cast_lt_one_iff st now).mp hlt)
  unfold animate
  dsimp only
  rw [if_neg hp]
  rfl

theorem animate_requests_iff (data : VideoRecord) (st now : Int) :
    Effect.requestAnimationFrame ∈ animate data st now ↔ now - st < 5000 := by
  by_cases h : now - st < 5000
  · simp [animate_of_lt data st now h, h]
  · simp [animate_of_ge data st now h, h]

theorem animate_ne_nil (data : VideoRecord) (st now : Int) : animate data st now ≠ [] := by
  by_cases h : now - st < 5000
  · simp [animate_of_lt data st now h]
  · simp [animate_of_ge data st now h]

theorem runFrames_ne_nil (data : VideoRecord) (st now : Int) (rest : List Int) :
    runFrames data st now rest ≠ [] := by
  cases rest with
  | nil => simpa [runFrames] using animate_ne_nil data st now
  | cons next rest =>
    unfold runFrames
    split
    · simp [animate_ne_nil]
    · exact animate_ne_nil data st now

theorem runFrames_cons_of_lt (data : VideoRecord) (st now next : Int) (rest : List Int)
    (h : now - st < 5000) :
    runFrames data st now (next :: rest)
      = animate data st now ++ runFrames data st next rest := by
  rw [runFrames, if_pos ((animate_requests_iff data st now).mpr h)]

theorem runFrames_of_ge (data : VideoRecord) (st now : Int) (rest : List Int)
    (h : ¬ now - st < 5000) :
    runFrames data st now rest = animate data st now := by
  cases rest with
  | nil => rfl
  | cons next rest =>
    rw [runFrames, if_neg (fun hm => h ((animate_requests_iff data st now).mp hm))]

theorem animate_stop_count (data : VideoRecord) (st t : Int) :
    (animate data st t).count Effect.recorderStop = (if t - st < 5000 then 0 else 1) := by
  by_cases h : t - st < 5000
  · simp [animate_of_lt data st t h, h, List.count_cons]
  · simp [animate_of_ge data st t h, h, List.count_cons]

theorem animate_dropLast_stop_count (data : VideoRecord) (st t : Int) :
    (animate data st t).dropLast.count Effect.recorderStop = 0 := by
  by_cases h : t - st < 5000
  · simp [animate_of_lt data st t h, List.count_cons]
  · simp [animate_of_ge data st t h, List.count_cons]

theorem runFrames_stop_count (data : VideoRecord) (st : Int) (rest : List Int) :
    ∀ now : Int,
      (runFrames data st now rest).count Effect.recorderStop
        = (if (now :: rest).all (fun t => decide (t - st < 5000)) then 0 else 1) ∧
      (runFrames data st now rest).dropLast.count Effect.recorderStop = 0 := by
  induction rest with
  | nil =>
    intro now
    refine ⟨?_, by simpa [runFrames] using animate_dropLast_stop_count data st now⟩
    rw [runFrames, animate_stop_count]
    by_cases h : now - st < 5000 <;> simp [h]
  | cons next rest ih =>
    intro now
    by_cases h : now - st < 5000
    · obtain ⟨ih1, ih2⟩ := ih next
      rw [runFrames_cons_of_lt data st now next rest h,
        List.dropLast_append_of_ne_nil _ (runFrames_ne_nil data st next rest),
        List.count_append, List.count_append, ih1, ih2, animate_stop_count]
      refine ⟨?_, by simp [h]⟩
      rw [List.all_cons (a := now)]
      simp [h]
    · rw [runFrames_of_ge data st now _ h]
      refine ⟨?_, animate_dropLast_stop_count data st now⟩
      rw [animate_stop_count, List.all_cons]
      simp [h]

theorem runFrames_stop_le_one (data : VideoRecord) (st : Int) (rest : List Int) (now : Int) :
    (runFrames data st now rest).count Effect.recorderStop ≤ 1 := by
  rw [(runFrames_stop_count data st rest now).1]
  split_ifs <;> omega

/-! ## Fetch step -/

/-- C1: when the query resolves to an empty list, `getVideoData` sets the error
to exactly "Video not found", performs no effect at all (so `generateVideo` is
not entered, no recorder is created or started and no frame is drawn), and
leaves `videoData`, `videoUrl` and `openDialog` as they were. -/
theorem getVideoData_empty_result (videoId : VideoId) (env : Env) (s : State) :
    ((getVideoData videoId).resume (.ok []) env s).1.error = some "Video not found" ∧
    ((getVideoData videoId).resume (.ok []) env s).2 = [] ∧
    ((getVideoData videoId).resume (.ok []) env s).1.videoData = s.videoData ∧
    ((getVideoData videoId).resume (.ok []) env s).1.videoUrl = s.videoUrl ∧
    ((getVideoData videoId).resume (.ok []) env s).1.openDialog = s.openDialog := by
  simp [getVideoData]

/-- C2: when the query rejects with `err`, `getVideoData` performs exactly one
effect, the `console.error` call carrying `err` (so `generateVideo` is not
entered), sets the error to exactly "Failed to fetch video data", and leaves
`videoData`, `videoUrl` and `openDialog` as they were. -/
theorem getVideoData_query_throws (videoId : VideoId) (err : String) (env : Env) (s : State) :
    ((getVideoData videoId).resume (.error err) env s).1.error
      = some "Failed to fetch video data" ∧
    ((getVideoData videoId).resume (.error err) env s).2
      = [Effect.consoleError "Error fetching video data:" err] ∧
    ((getVideoData videoId).resume (.error err) env s).2.countP Effect.isConsoleError = 1 ∧
    ((getVideoData videoId).resume (.error err) env s).2.countP Effect.isGenerateVideo = 0 ∧
    ((getVideoData videoId).resume (.error err) env s).1.videoData = s.videoData ∧
    ((getVideoData videoId).resume (.error err) env s).1.videoUrl = s.videoUrl ∧
    ((getVideoData videoId).resume (.error err) env s).1.openDialog = s.openDialog := by
  simp [getVideoData, Effect.isConsoleError, Effect.isGenerateVideo]

/-- C3: when the query resolves to a non-empty list `row :: rest`,
`getVideoData` stores `row` in `videoData`, enters `generateVideo` exactly once
and with that same `row` (the trace is the entry followed by what
`generateVideo` does on `row`), and leaves `error` as it was. -/
theorem getVideoData_nonempty_result (videoId : VideoId) (row : VideoRecord)
    (rest : List VideoRecord) (env : Env) (s : State) :
    ((getVideoData videoId).resume (.ok (row :: rest)) env s).1.videoData = some row ∧
    ((getVideoData videoId).resume (.ok (row :: rest)) env s).2
      = Effect.generateVideo row :: generateVideo env row ∧
    ((getVideoData videoId).resume (.ok (row :: rest)) env s).2.countP
      Effect.isGenerateVideo = 1 ∧
    ((getVideoData videoId).resume (.ok (row :: rest)) env s).2.count
      (Effect.generateVideo row) = 1 ∧
    ((getVideoData videoId).resume (.ok (row :: rest)) env s).1.error = s.error := by
  have hc := generateVideo_isGenerateVideo env row
  have hc2 : (generateVideo env row).count (Effect.generateVideo row) = 0 := by
    rw [List.count_eq_zero]
    intro hmem
    have := List.countP_pos_iff.mpr ⟨_, hmem, (rfl : Effect.isGenerateVideo (Effect.generateVideo row) = true)⟩
    omega
  simp [getVideoData, List.countP_cons, Effect.isGenerateVideo, hc, hc2]

/-! ## Dialog controller -/

/-- C4: from every state, `handleClose` sets `openDialog` to false and invokes
`onClose` exactly once; the `onOpenChange` handler called with `false` sets
`openDialog` to false as well but performs no effect, so `onClose` is invoked
zero times on that way of closing. -/
theorem onOpenChange_skips_onClose (s : State) :
    (handleClose s).1.openDialog = false ∧
    (handleClose s).2.count Effect.onClose = 1 ∧
    (onOpenChange false s).1.openDialog = false ∧
    (onOpenChange false s).2 = [] ∧
    (onOpenChange false s).2.count Effect.onClose = 0 := by
  simp [handleClose, onOpenChange]

/-- C5, as stated, fails: run on a state that shows "Video not found", the open
effect leaves that error in place. -/
theorem openEffect_keeps_error :
    notFoundState.error = some "Video not found" ∧
    ¬ ((openEffect (.num 8) notFoundState).1.error = none ∧
       (openEffect (.num 8) notFoundState).1.videoUrl = none ∧
       (openEffect (.num 8) notFoundState).1.openDialog = true ∧
       ((openEffect (.num 8) notFoundState).2.isSome = true ↔
         (VideoId.num 8).truthy = true)) := by
  simp [notFoundState, openEffect, getVideoData]

/-- C5, amended: when the open effect runs, for every prior state the dialog is
marked open, a fetch is started if and only if `videoId` is truthy (and it
queries that `videoId`), and `error`, `videoUrl` and `videoData` are what they
were before the effect. -/
theorem openEffect_spec (videoId : VideoId) (s : State) :
    (openEffect videoId s).1.openDialog = true ∧
    ((openEffect videoId s).2.isSome = true ↔ videoId.truthy = true) ∧
    (openEffect videoId s).2.map Pending.query
      = (if videoId.truthy then some videoId else none) ∧
    (openEffect videoId s).1.error = s.error ∧
    (openEffect videoId s).1.videoUrl = s.videoUrl ∧
    (openEffect videoId s).1.videoData = s.videoData := by
  unfold openEffect
  cases h : videoId.truthy <;> simp [getVideoData]

/-! ## Presentation -/

/-- C6, as stated, fails: the view rendered for a state that shows
"Video not found" consists of the error paragraph only and holds no close
control. -/
theorem render_error_no_close :
    (render notFoundState).description = [Node.errorText "Video not found"] ∧
    ¬ ((render notFoundState).closeControls = 1) := by
  decide

/-- C6, amended: for every state, the rendered content holds exactly one close
control, the "Close" button bound to `handleClose`, when `error` is not set
(falsy), and none when `error` is set: the view rendered while an error is
shown consists of the error paragraph only. -/
theorem render_closeControls (s : State) :
    (render s).closeControls = (if truthyStr s.error then 0 else 1) ∧
    (render s).description.filter Node.isCloseControl
      = (if truthyStr s.error then [] else [Node.button "Close" Handler.handleClose]) ∧
    (render s).description
      = (if truthyStr s.error then [Node.errorText (s.error.getD "")]
         else Node.canvas ::
           ((if truthyStr s.videoUrl then [Node.video (s.videoUrl.getD "")] else []) ++
            [Node.button "Close" Handler.handleClose])) := by
  unfold View.closeControls render
  cases h : truthyStr s.error <;> cases h2 : truthyStr s.videoUrl <;>
    simp [List.countP_cons, List.filter_cons, Node.isCloseControl]

/-! ## Animation arithmetic -/

/-- C7: for every `elapsed ≥ 0` the progress `min (elapsed / 5000) 1` lies in
`[0, 1]`, equals `elapsed / 5000` when `elapsed ≤ 5000` and `1` otherwise; at
`0, 2500, 5000, 6000` it is `0, 1/2, 1, 1`. -/
theorem progress_clamped (elapsed : ℚ) (h : 0 ≤ elapsed) :
    0 ≤ progress elapsed ∧ progress elapsed ≤ 1 ∧
    progress elapsed = (if elapsed ≤ 5000 then elapsed / 5000 else 1) ∧
    progress 0 = 0 ∧ progress 2500 = 1 / 2 ∧ progress 5000 = 1 ∧ progress 6000 = 1 := by
  unfold progress
  rw [duration_ms]
  refine ⟨le_min (div_nonneg h (by norm_num)) zero_le_one, min_le_right _ _, ?_,
    by norm_num, by norm_num, by norm_num, by norm_num⟩
  split_ifs with h5
  · exact min_eq_left ((div_le_one (by norm_num)).mpr h5)
  · exact min_eq_right ((one_le_div (by norm_num)).mpr (le_of_lt (not_le.mp h5)))

/-- C8: progress is monotone non-decreasing in the elapsed time. -/
theorem progress_mono (e1 e2 : ℚ) (h : e1 ≤ e2) : progress e1 ≤ progress e2 := by
  unfold progress
  rw [duration_ms]
  exact min_le_min (div_le_div_of_nonneg_right h (by norm_num)) le_rfl

theorem progress_clamped_witness :
    (0 : ℚ) ≤ 2500 ∧
    (0 ≤ progress 2500 ∧ progress 2500 ≤ 1 ∧
      progress 2500 = (if (2500 : ℚ) ≤ 5000 then 2500 / 5000 else 1) ∧
      progress 0 = 0 ∧ progress 2500 = 1 / 2 ∧ progress 5000 = 1 ∧ progress 6000 = 1) :=
  ⟨by norm_num, progress_clamped 2500 (by norm_num)⟩

theorem progress_mono_witness :
    (2500 : ℚ) ≤ 6000 ∧ progress 2500 ≤ progress 6000 :=
  ⟨by norm_num, progress_mono 2500 6000 (by norm_num)⟩

/-- C9: every run of `animate`, whatever the clock reading, draws exactly one
text, the record's `textContent`, at `x = 50` and `y = 50 + progress * 100`;
that `y` is 50 at progress 0 and 150 at progress 1, never exceeds 150, and lies
in `[50, 150]` whenever the elapsed time is non-negative. -/
theorem animate_fillText (data : VideoRecord) (st now : Int) :
    (animate data st now).filter Effect.isFillText
      = [Effect.fillText data.textContent 50
          (50 + progress ((now - st : Int) : ℚ) * 100)] ∧
    textY 0 = 50 ∧ textY 1 = 150 ∧
    50 + progress ((now - st : Int) : ℚ) * 100 ≤ 150 ∧
    (0 ≤ now - st →
      50 ≤ 50 + progress ((now - st : Int) : ℚ) * 100 ∧
      50 + progress ((now - st : Int) : ℚ) * 100 ≤ 150) := by
  have h1 := progress_le_one ((now - st : Int) : ℚ)
  refine ⟨?_, by norm_num [textY], by norm_num [textY], by linarith, ?_⟩
  · unfold animate
    dsimp only
    split_ifs <;> simp [List.filter_cons, Effect.isFillText, textY]
  · intro h
    have hq : (0 : ℚ) ≤ ((now - st : Int) : ℚ) := by exact_mod_cast h
    have h0 := progress_nonneg _ hq
    exact ⟨by linarith, by linarith⟩

theorem animate_fillText_witness :
    (0 : Int) ≤ 3500 - 1000 ∧
    (animate { id := 1, textContent := "hello" } 1000 3500).filter Effect.isFillText
        = [Effect.fillText "hello" 50 (50 + progress ((3500 - 1000 : Int) : ℚ) * 100)] ∧
    50 ≤ 50 + progress ((3500 - 1000 : Int) : ℚ) * 100 ∧
    50 + progress ((3500 - 1000 : Int) : ℚ) * 100 ≤ 150 :=
  ⟨by decide,
    (animate_fillText { id := 1, textContent := "hello" } 1000 3500).1,
    (animate_fillText { id := 1, textContent := "hello" } 1000 3500).2.2.2.2 (by decide)⟩

/-! ## Frame loop -/

/-- C10: a run of `animate` requests exactly one next frame and does not stop
the recorder if and only if its progress is below 1, that is, iff the elapsed
time is below 5000 ms; otherwise it stops the recorder once and requests no
frame. For every sequence of clock readings `now :: rest`, the frames that run
are those for the leading readings with elapsed below 5000 ms followed by the
frame for the first reading with elapsed at least 5000 ms (if there is one);
`recorder.stop` occurs at most once in the trace, exactly when some reading has
elapsed at least 5000 ms, and only as the very last effect; the same two bounds
hold for the trace of a whole `generateVideo` call. -/
theorem runFrames_spec (data : VideoRecord) (st now : Int) (rest : List Int) (env : Env) :
    (((animate data st now).count Effect.requestAnimationFrame = 1 ∧
        (animate data st now).count Effect.recorderStop = 0) ↔
      progress ((now - st : Int) : ℚ) < 1) ∧
    (progress ((now - st : Int) : ℚ) < 1 ↔ now - st < 5000) ∧
    (animate data st now).count Effect.requestAnimationFrame
      = (if now - st < 5000 then 1 else 0) ∧
    (animate data st now).count Effect.recorderStop
      = (if now - st < 5000 then 0 else 1) ∧
    runFrames data st now rest
      = ((now :: rest).takeWhile (fun t => decide (t - st < 5000))).flatMap (animate data st)
        ++ (match (now :: rest).dropWhile (fun t => decide (t - st < 5000)) with
            | [] => []
            | t :: _ => animate data st t) ∧
    (runFrames data st now rest).count Effect.recorderStop
      = (if (now :: rest).all (fun t => decide (t - st < 5000)) then 0 else 1) ∧
    (runFrames data st now rest).count Effect.recorderStop ≤ 1 ∧
    (runFrames data st now rest).dropLast.count Effect.recorderStop = 0 ∧
    (generateVideo env data).count Effect.recorderStop ≤ 1 ∧
    (generateVideo env data).dropLast.count Effect.recorderStop = 0 := by
  have hraf : (animate data st now).count Effect.requestAnimationFrame
      = (if now - st < 5000 then 1 else 0) := by
    by_cases h : now - st < 5000
    · simp [animate_of_lt data st now h, h, List.count_cons]
    · simp [animate_of_ge data st now h, h, List.count_cons]
  have hshape : ∀ (rest : List Int) (now : Int), runFrames data st now rest
      = ((now :: rest).takeWhile (fun t => decide (t - st < 5000))).flatMap (animate data st)
        ++ (match (now :: rest).dropWhile (fun t => decide (t - st < 5000)) with
            | [] => []
            | t :: _ => animate data st t) := by
    intro rest
    induction rest with
    | nil =>
      intro now
      by_cases h : now - st < 5000
      · simp [runFrames, List.takeWhile, List.dropWhile, h]
      · simp [runFrames, List.takeWhile, List.dropWhile, h]
    | cons next rest ih =>
      intro now
      by_cases h : now - st < 5000
      · have e1 : (now :: next :: rest).takeWhile (fun t => decide (t - st < 5000))
            = now :: (next :: rest).takeWhile (fun t => decide (t - st < 5000)) :=
          List.takeWhile_cons_of_pos (by simpa using h)
        have e2 : (now :: next :: rest).dropWhile (fun t => decide (t - st < 5000))
            = (next :: rest).dropWhile (fun t => decide (t - st < 5000)) :=
          List.dropWhile_cons_of_pos (by simpa using h)
        rw [runFrames_cons_of_lt data st now next rest h, e1, e2, ih next,
          List.flatMap_cons, List.append_assoc]
      · rw [runFrames_of_ge data st now _ h]
        rw [List.takeWhile_cons_of_neg (by simpa using h),
          List.dropWhile_cons_of_neg (by simpa using h)]
        simp
  have hgen : (generateVideo env data).count Effect.recorderStop ≤ 1 ∧
      (generateVideo env data).dropLast.count Effect.recorderStop = 0 := by
    unfold generateVideo
    split
    · simp
    · split
      · simp
      · have h1 := runFrames_stop_le_one data env.startTime env.laterNows env.firstNow
        have h2 := (runFrames_stop_count data env.startTime env.laterNows env.firstNow).2
        rw [List.dropLast_append_of_ne_nil _ (runFrames_ne_nil data _ _ _),
          List.count_append, List.count_append, h2]
        refine ⟨?_, by simp [List.count_cons]⟩
        simpa [List.count_cons] using h1
  refine ⟨?_, progress_cast_lt_one_iff st now, hraf, animate_stop_count data st now,
    hshape rest now, (runFrames_stop_count data st rest now).1,
    runFrames_stop_le_one data st rest now, (runFrames_stop_count data st rest now).2,
    hgen.1, hgen.2⟩
  rw [hraf, animate_stop_count data st now, progress_cast_lt_one_iff]
  by_cases h : now - st < 5000 <;> simp [h]

end PlayerDialog
